import Mathlib

/-!
Verification of the video-recorder ingestion pipeline.

Shallow embedding of the repository's core:
  * `apps/api/src/middlewares/upload.ts` — multer configuration (mime allow-list,
    size ceiling, memory storage);
  * `apps/api/src/services/videoService.ts` — `VideoService.processVideo`,
    `getRecordings`, `getRecording`, `deleteRecording` and the `Recording` shape;
  * `apps/api/src/routes/video.ts` — the upload route's mime re-check.

External collaborators (ffmpeg, the Whisper endpoint, MongoDB, the filesystem)
are modelled as oracles carried in a `PipelineEnv`: each oracle field decides
whether the corresponding await-point succeeds and what value it produces.
The filesystem workspace is a list of existing paths; the document store is the
list of inserted `Recording`s in insertion order.
-/

/-- One inbound upload as multer's memory storage hands it to the route:
`Express.Multer.File` with the fields `processVideo` reads. -/
structure UploadFile where
  originalname : String
  mimetype : String
  size : Nat
  buffer : List Nat
deriving Repr, DecidableEq

/-- The persisted document shape (`Recording` interface in videoService.ts).
`snapshot` and `transcription` are optional fields; a field omitted from the
inserted document is `none`. `_id` is the ObjectId as its 24-char lowercase hex
string; `createdAt` is a timestamp in milliseconds. -/
structure Recording where
  _id : String
  filename : String
  originalName : String
  mimeType : String
  size : Nat
  snapshot : Option String := none
  transcription : Option String := none
  createdAt : Nat
deriving Repr, DecidableEq

/-- Errors a run can surface. `validation` covers multer's fileFilter /
fileSize rejections and the route's mime re-check; `invalidId` is the
BSONError thrown by `new ObjectId(id)` on a malformed id string. -/
inductive PipeError where
  | validation
  | writeFailed
  | snapshotFailed
  | audioFailed
  | transcriptionFailed
  | persistFailed
  | invalidId
deriving Repr, DecidableEq

/-- The value `processVideo` resolves with: `{ id, transcription }`. -/
structure IngestResult where
  id : String
  transcription : String
deriving Repr, DecidableEq

/-- Oracle for everything outside the service: the three `Date.now()` calls of
the path allocation, success of each external await-point, the transcription
text (absent on `TranscriptionServiceError`), the base64 bytes
`fs.readFileSync(thumbnailPath, 'base64')` returns, the fresh ObjectId hex, the
`new Date()` timestamp of the inserted document, and the insert's success. -/
structure PipelineEnv where
  now1 : Nat
  now2 : Nat
  now3 : Nat
  writeOk : Bool
  thumbnailOk : Bool
  audioOk : Bool
  transcriptionResult : Option String
  thumbnailData : String
  freshId : String
  createdAt : Nat
  insertOk : Bool
deriving Repr, DecidableEq

/-- `path.join(this.uploadsDir, `temp-${Date.now()}.mp4`)` without the common
directory prefix (shared by every path, so dropped throughout). -/
def tempVideoPath (t : Nat) : String :=
  "temp-" ++ toString t ++ ".mp4"

/-- `path.join(this.uploadsDir, `thumbnail-${Date.now()}.jpg`)`. -/
def thumbnailPath (t : Nat) : String :=
  "thumbnail-" ++ toString t ++ ".jpg"

/-- `path.join(this.uploadsDir, `audio-${Date.now()}.mp3`)`. -/
def audioPath (t : Nat) : String :=
  "audio-" ++ toString t ++ ".mp3"

/-- The three temporary paths one run allocates (lines 73–75 of
videoService.ts), one `Date.now()` observation per path. -/
def allocatePaths (t1 t2 t3 : Nat) : List String :=
  [tempVideoPath t1, thumbnailPath t2, audioPath t3]

/-- The multer fileFilter's allow-list (upload.ts); the route re-checks the
same six entries in a different order. -/
def allowedTypes : List String :=
  ["video/mp4", "video/webm", "video/x-m4v", "video/x-msvideo",
   "video/x-flv", "video/x-matroska"]

/-- `process.env.MAX_FILE_SIZE` fallback: `100 * 1024 * 1024` bytes. -/
def defaultMaxFileSize : Nat := 100 * 1024 * 1024

/-- multer's checks before any service code runs: fileFilter rejects a
mimetype outside the allow-list, `limits.fileSize` rejects a body larger than
the ceiling. Memory storage buffers in RAM, so no file I/O happens either way. -/
def validateUpload (maxFileSize : Nat) (file : UploadFile) : Bool :=
  allowedTypes.contains file.mimetype && file.size ≤ maxFileSize

/-- What one call to `processVideo` leaves behind: the resolved or rejected
promise, the workspace contents, the store contents, and how many times the
cleanup block (the three `fs.unlinkSync` calls) ran. -/
structure RunOutcome where
  result : Except PipeError IngestResult
  files : List String
  store : List Recording
  releaseCount : Nat
deriving Repr

namespace VideoService

/-- `VideoService.processVideo` (videoService.ts lines 70–118), step by step:
write the buffer to `tempVideoPath`, generate the thumbnail, extract the audio,
transcribe it, read the thumbnail as base64, insert the document, then unlink
the three temporary files and return `{ id, transcription }`. The `catch`
block only logs and rethrows, so every failure propagates with the workspace
and store exactly as the failing step left them. The inserted document carries
`filename` and `originalName` both from `file.originalname` and has no
`snapshot` field; the `thumbnail` variable read on line 93 is never used. -/
def processVideo (file : UploadFile) (env : PipelineEnv)
    (files : List String) (store : List Recording) : RunOutcome :=
  let tempVideo := tempVideoPath env.now1
  let thumb := thumbnailPath env.now2
  let audioFile := audioPath env.now3
  if !env.writeOk then
    ⟨.error .writeFailed, files, store, 0⟩
  else
    let files1 := files ++ [tempVideo]
    if !env.thumbnailOk then
      ⟨.error .snapshotFailed, files1, store, 0⟩
    else
      let files2 := files1 ++ [thumb]
      if !env.audioOk then
        ⟨.error .audioFailed, files2, store, 0⟩
      else
        let files3 := files2 ++ [audioFile]
        match env.transcriptionResult with
        | none => ⟨.error .transcriptionFailed, files3, store, 0⟩
        | some transcription =>
          let thumbnail := env.thumbnailData
          if !env.insertOk then
            ⟨.error .persistFailed, files3, store, 0⟩
          else
            let inserted : Recording :=
              { _id := env.freshId
                filename := file.originalname
                originalName := file.originalname
                mimeType := file.mimetype
                size := file.size
                transcription := some transcription
                createdAt := env.createdAt }
            let _ := thumbnail
            let files4 := ((files3.erase tempVideo).erase audioFile).erase thumb
            ⟨.ok ⟨env.freshId, transcription⟩, files4, store ++ [inserted], 1⟩

end VideoService

/-- `new ObjectId(id)` accepts a 24-character hex string and throws a
BSONError otherwise; comparison of ObjectIds is on the underlying bytes, so
the hex is normalised to lowercase. `none` models the thrown BSONError. -/
def parseObjectId (id : String) : Option String :=
  if id.length = 24 ∧ id.data.all (fun c => c.isDigit || ("abcdefABCDEF".data.contains c)) then
    some ⟨id.data.map Char.toLower⟩
  else
    none

/-- What `collection.find().sort({ createdAt: -1 }).toArray()` guarantees and
nothing more: the cursor yields every stored document exactly once, in an
order where `createdAt` never increases. MongoDB leaves the relative order of
documents with equal `createdAt` unspecified, so any `yielded` list meeting
these two conditions is a possible result; the engine picks one. Decidable,
so concrete instances evaluate. -/
def mongoFindSortDesc (store yielded : List Recording) : Prop :=
  List.Perm yielded store ∧
    yielded.Pairwise (fun x y => y.createdAt ≤ x.createdAt)

namespace VideoService

/-- `VideoService.getRecordings` (lines 153–157) delegates the ordering to
the store engine: it returns whatever the engine yields for
`find().sort({ createdAt: -1 })`, related to the stored documents by the
engine's contract `mongoFindSortDesc`. -/
def getRecordings (store yielded : List Recording) : Prop :=
  mongoFindSortDesc store yielded

/-- `VideoService.getRecording` (lines 159–163):
`collection.findOne({ _id: new ObjectId(id) })`. The ObjectId constructor
throws before the query on a malformed id. -/
def getRecording (store : List Recording) (id : String) :
    Except PipeError (Option Recording) :=
  match parseObjectId id with
  | none => .error .invalidId
  | some oid => .ok (store.find? (fun r => r._id == oid))

/-- `VideoService.deleteRecording` (lines 165–169):
`collection.deleteOne({ _id: new ObjectId(id) })` removes the first matching
document; the ObjectId constructor throws before the query on a malformed id. -/
def deleteRecording (store : List Recording) (id : String) :
    Except PipeError (List Recording) :=
  match parseObjectId id with
  | none => .error .invalidId
  | some oid => .ok (store.eraseP (fun r => r._id == oid))

end VideoService

/-- The whole inbound path for one upload: multer validation (upload.ts) and
the route's allow-list re-check (video.ts lines 27–30) run before
`videoService.processVideo`; a rejected upload never reaches the service. -/
def ingest (maxFileSize : Nat) (file : UploadFile) (env : PipelineEnv)
    (files : List String) (store : List Recording) : RunOutcome :=
  if validateUpload maxFileSize file then
    VideoService.processVideo file env files store
  else
    ⟨.error .validation, files, store, 0⟩

/-! ### Fixtures used by witnesses and counterexamples -/

/-- A well-formed webm upload. -/
def sampleFile : UploadFile :=
  { originalname := "clip.webm", mimetype := "video/webm", size := 5,
    buffer := [1, 2, 3, 4, 5] }

/-- An upload with a disallowed mime type. -/
def pdfFile : UploadFile :=
  { originalname := "doc.pdf", mimetype := "application/pdf", size := 5,
    buffer := [1, 2, 3, 4, 5] }

/-- An environment in which every external call succeeds. -/
def okEnv : PipelineEnv :=
  { now1 := 1000, now2 := 1000, now3 := 1000,
    writeOk := true, thumbnailOk := true, audioOk := true,
    transcriptionResult := some "hello world", thumbnailData := "aGVsbG8=",
    freshId := "0123456789abcdef01234567", createdAt := 2000, insertOk := true }

/-- Same run, but the speech backend fails (`TranscriptionServiceError`). -/
def transcriptionFailEnv : PipelineEnv :=
  { okEnv with transcriptionResult := none }

/-- A second concurrent run: different transcript and fresh id, but the same
`Date.now()` millisecond readings as `okEnv`. -/
def secondRunEnv : PipelineEnv :=
  { okEnv with transcriptionResult := some "second run",
               freshId := "fedcba9876543210fedcba98" }

/-- The document the success-path run over `sampleFile`/`okEnv` inserts. -/
def sampleInserted : Recording :=
  { _id := "0123456789abcdef01234567", filename := "clip.webm",
    originalName := "clip.webm", mimeType := "video/webm", size := 5,
    transcription := some "hello world", createdAt := 2000 }

/-- Three stored records with strictly increasing `createdAt`. -/
def recA : Recording :=
  { _id := "aaaaaaaaaaaaaaaaaaaaaaaa", filename := "a.webm",
    originalName := "a.webm", mimeType := "video/webm", size := 1,
    transcription := some "a", createdAt := 10 }

/-- Second stored record. -/
def recB : Recording :=
  { _id := "bbbbbbbbbbbbbbbbbbbbbbbb", filename := "b.webm",
    originalName := "b.webm", mimeType := "video/webm", size := 2,
    transcription := some "b", createdAt := 20 }

/-- Third stored record. -/
def recC : Recording :=
  { _id := "cccccccccccccccccccccccc", filename := "c.webm",
    originalName := "c.webm", mimeType := "video/webm", size := 3,
    transcription := some "c", createdAt := 30 }

/-- First of two records sharing a `createdAt` timestamp. -/
def recD : Recording :=
  { _id := "dddddddddddddddddddddddd", filename := "d.webm",
    originalName := "d.webm", mimeType := "video/webm", size := 4,
    transcription := some "d", createdAt := 40 }

/-- Second record with the same `createdAt` as `recD`, inserted after it. -/
def recE : Recording :=
  { _id := "eeeeeeeeeeeeeeeeeeeeeeee", filename := "e.webm",
    originalName := "e.webm", mimeType := "video/webm", size := 5,
    transcription := some "e", createdAt := 40 }

/-! ### Helper lemmas about temporary paths -/

theorem tempVideoPath_ne_thumbnailPath (t1 t2 : Nat) :
    tempVideoPath t1 ≠ thumbnailPath t2 := by
  intro h
  have h2 := congrArg String.data h
  simp [tempVideoPath, thumbnailPath] at h2

theorem tempVideoPath_ne_audioPath (t1 t3 : Nat) :
    tempVideoPath t1 ≠ audioPath t3 := by
  intro h
  have h2 := congrArg String.data h
  simp [tempVideoPath, audioPath] at h2

theorem thumbnailPath_ne_audioPath (t2 t3 : Nat) :
    thumbnailPath t2 ≠ audioPath t3 := by
  intro h
  have h2 := congrArg String.data h
  simp [thumbnailPath, audioPath] at h2

theorem tempVideoPath_inj (t u : Nat) (h : tempVideoPath t = tempVideoPath u) :
    toString t = toString u := by
  have h2 := congrArg String.data h
  simp only [tempVideoPath, String.data_append, List.append_assoc] at h2
  exact String.ext (List.append_cancel_right (List.append_cancel_left h2))

theorem thumbnailPath_inj (t u : Nat) (h : thumbnailPath t = thumbnailPath u) :
    toString t = toString u := by
  have h2 := congrArg String.data h
  simp only [thumbnailPath, String.data_append, List.append_assoc] at h2
  exact String.ext (List.append_cancel_right (List.append_cancel_left h2))

theorem audioPath_inj (t u : Nat) (h : audioPath t = audioPath u) :
    toString t = toString u := by
  have h2 := congrArg String.data h
  simp only [audioPath, String.data_append, List.append_assoc] at h2
  exact String.ext (List.append_cancel_right (List.append_cancel_left h2))

/-! ### Helper lemmas about the run's workspace bookkeeping -/

/-- Unlinking the three freshly created files restores the initial workspace. -/
theorem erase_three_restores (files : List String) (v t a : String)
    (hv : v ∉ files) (ht : t ∉ files) (ha : a ∉ files) (hat : a ≠ t) :
    (((files ++ [v, t, a]).erase v).erase a).erase t = files := by
  rw [List.erase_append_right _ hv]
  simp only [List.erase_cons_head]
  rw [List.erase_append_right _ ha]
  rw [List.erase_cons_tail (by simpa using Ne.symm hat), List.erase_cons_head]
  rw [List.erase_append_right _ ht]
  simp

/-- Case analysis of `processVideo` as one equation: each exit path with the
workspace, store and release count it leaves. -/
theorem processVideo_eq (file : UploadFile) (env : PipelineEnv)
    (files : List String) (store : List Recording) :
    VideoService.processVideo file env files store =
      if env.writeOk = false then
        ⟨.error .writeFailed, files, store, 0⟩
      else if env.thumbnailOk = false then
        ⟨.error .snapshotFailed, files ++ [tempVideoPath env.now1], store, 0⟩
      else if env.audioOk = false then
        ⟨.error .audioFailed,
          (files ++ [tempVideoPath env.now1]) ++ [thumbnailPath env.now2], store, 0⟩
      else
        match env.transcriptionResult with
        | none =>
          ⟨.error .transcriptionFailed,
            ((files ++ [tempVideoPath env.now1]) ++ [thumbnailPath env.now2])
              ++ [audioPath env.now3], store, 0⟩
        | some ts =>
          if env.insertOk = false then
            ⟨.error .persistFailed,
              ((files ++ [tempVideoPath env.now1]) ++ [thumbnailPath env.now2])
                ++ [audioPath env.now3], store, 0⟩
          else
            ⟨.ok ⟨env.freshId, ts⟩,
              (((((files ++ [tempVideoPath env.now1]) ++ [thumbnailPath env.now2])
                  ++ [audioPath env.now3]).erase (tempVideoPath env.now1)).erase
                  (audioPath env.now3)).erase (thumbnailPath env.now2),
              store ++ [{ _id := env.freshId,
                          filename := file.originalname,
                          originalName := file.originalname,
                          mimeType := file.mimetype,
                          size := file.size,
                          transcription := some ts,
                          createdAt := env.createdAt }], 1⟩ := by
  rcases env with ⟨n1, n2, n3, w, tb, ab, tr, td, fid, ca, ins⟩
  cases w <;> cases tb <;> cases ab <;> cases tr <;> cases ins <;> rfl

/-! ### Claim theorems -/

/-- Claim C1 fails on the code: the three `fs.unlinkSync` calls sit at the end
of the `try` block and the `catch` only logs and rethrows, so a run that fails
at the transcription stage performs no workspace release and leaves all three
temporary files (source, snapshot, audio) behind. -/
theorem release_skipped_on_failure :
    (VideoService.processVideo sampleFile transcriptionFailEnv [] []).releaseCount = 0 ∧
    (VideoService.processVideo sampleFile transcriptionFailEnv [] []).files =
      [tempVideoPath 1000, thumbnailPath 1000, audioPath 1000] :=
  ⟨rfl, rfl⟩

/-- Claim C1 amended: workspace release runs exactly once on the success path,
where it restores the workspace to its initial contents; on every failing exit
path release runs zero times, the initial workspace survives as a prefix, and
once the source file has been written (every failure past the write stage) the
run leaves files behind. -/
theorem release_once_on_success_only (file : UploadFile) (env : PipelineEnv)
    (files : List String) (store : List Recording)
    (hv : tempVideoPath env.now1 ∉ files)
    (ht : thumbnailPath env.now2 ∉ files)
    (ha : audioPath env.now3 ∉ files) :
    ((VideoService.processVideo file env files store).result.isOk = true →
        (VideoService.processVideo file env files store).releaseCount = 1 ∧
        (VideoService.processVideo file env files store).files = files) ∧
    ((VideoService.processVideo file env files store).result.isOk = false →
        (VideoService.processVideo file env files store).releaseCount = 0 ∧
        files <+: (VideoService.processVideo file env files store).files) ∧
    ((VideoService.processVideo file env files store).result.isOk = false →
        env.writeOk = true →
        (VideoService.processVideo file env files store).files ≠ files) := by
  have hat := thumbnailPath_ne_audioPath env.now2 env.now3
  rw [processVideo_eq]
  rcases env with ⟨n1, n2, n3, w, tb, ab, tr, td, fid, ca, ins⟩
  simp only at hv ht ha hat
  cases w <;> cases tb <;> cases ab <;> cases tr <;> cases ins <;>
    simp_all [Except.isOk, Except.toBool,
      erase_three_restores files _ _ _ hv ht ha (Ne.symm hat)]

/-- Witness for the amended C1: the all-success run over the sample upload
releases exactly once and ends with an empty workspace. -/
theorem release_once_on_success_only_witness :
    (VideoService.processVideo sampleFile okEnv [] []).releaseCount = 1 ∧
    (VideoService.processVideo sampleFile okEnv [] []).files = [] :=
  (release_once_on_success_only sampleFile okEnv [] []
    (by simp) (by simp) (by simp)).1 rfl

/-- Claim C2 states the intent, but the code drops the snapshot: on a fully
successful run the thumbnail is generated and read into the `thumbnail`
variable (line 93), yet the document built on lines 95–103 has no `snapshot`
field, so the record persisted by a successful run never carries the snapshot.
The service's own `Recording` interface declares `snapshot?` and the web UI
renders `recording.snapshot`, so the omission contradicts the code's own
declarations. -/
theorem snapshot_dropped_on_success :
    okEnv.thumbnailOk = true ∧
    (VideoService.processVideo sampleFile okEnv [] []).result =
      .ok ⟨"0123456789abcdef01234567", "hello world"⟩ ∧
    (VideoService.processVideo sampleFile okEnv [] []).store = [sampleInserted] ∧
    sampleInserted.snapshot = none :=
  ⟨rfl, rfl, rfl, rfl⟩

/-- Claim C3: a successful run appends exactly one record to the store, and a
run that terminates with an error leaves the store untouched — no partial
record is ever persisted. -/
theorem exactly_one_insert_on_success (file : UploadFile) (env : PipelineEnv)
    (files : List String) (store : List Recording) :
    ((VideoService.processVideo file env files store).result.isOk = true →
        ∃ r : Recording,
          (VideoService.processVideo file env files store).store = store ++ [r]) ∧
    ((VideoService.processVideo file env files store).result.isOk = false →
        (VideoService.processVideo file env files store).store = store) := by
  rw [processVideo_eq]
  rcases env with ⟨n1, n2, n3, w, tb, ab, tr, td, fid, ca, ins⟩
  cases w <;> cases tb <;> cases ab <;> cases tr <;> cases ins <;>
    simp [Except.isOk, Except.toBool]

/-- Witness for C3: the successful sample run appends exactly one record. -/
theorem exactly_one_insert_on_success_witness :
    ∃ r : Recording,
      (VideoService.processVideo sampleFile okEnv [] []).store = [] ++ [r] :=
  (exactly_one_insert_on_success sampleFile okEnv [] []).1 rfl

/-- Claim C4: an upload whose mime type is outside the six-entry allow-list or
whose size exceeds the ceiling is rejected with a validation error before the
service runs: no workspace file is created, the store is unmodified, and no
release happens. -/
theorem validation_rejects_upfront (maxFileSize : Nat) (file : UploadFile)
    (env : PipelineEnv) (files : List String) (store : List Recording)
    (h : allowedTypes.contains file.mimetype = false ∨ maxFileSize < file.size) :
    (ingest maxFileSize file env files store).result = .error .validation ∧
    (ingest maxFileSize file env files store).files = files ∧
    (ingest maxFileSize file env files store).store = store ∧
    (ingest maxFileSize file env files store).releaseCount = 0 := by
  have hval : validateUpload maxFileSize file = false := by
    cases hc : allowedTypes.contains file.mimetype <;>
      rcases h with h | h <;> simp_all [validateUpload]
  unfold ingest
  rw [hval]
  exact ⟨rfl, rfl, rfl, rfl⟩

/-- Witness for C4: a `application/pdf` upload is rejected with no effects. -/
theorem validation_rejects_upfront_witness :
    (ingest defaultMaxFileSize pdfFile okEnv [] []).result = .error .validation ∧
    (ingest defaultMaxFileSize pdfFile okEnv [] []).files = [] ∧
    (ingest defaultMaxFileSize pdfFile okEnv [] []).store = [] ∧
    (ingest defaultMaxFileSize pdfFile okEnv [] []).releaseCount = 0 :=
  validation_rejects_upfront defaultMaxFileSize pdfFile okEnv [] []
    (Or.inl (by decide))

/-- Claim C5 fails on the code: the path suffix is just `Date.now()`, so two
distinct runs that allocate in the same millisecond (here both reading 1000)
are assigned identical source, snapshot and audio paths. -/
theorem concurrent_runs_can_collide :
    okEnv ≠ secondRunEnv ∧
    allocatePaths okEnv.now1 okEnv.now2 okEnv.now3 =
      allocatePaths secondRunEnv.now1 secondRunEnv.now2 secondRunEnv.now3 :=
  ⟨by decide, rfl⟩

/-- Claim C5 amended: within one run the three paths are always pairwise
distinct (the prefixes and extensions differ), and the paths of two runs are
pairwise distinct whenever the respective `Date.now()` readings render to
different digit strings; runs observing equal readings — possible for two runs
in the same millisecond — collide. -/
theorem allocatePaths_distinct (t1 t2 t3 u1 u2 u3 : Nat)
    (h1 : toString t1 ≠ toString u1) (h2 : toString t2 ≠ toString u2)
    (h3 : toString t3 ≠ toString u3) :
    (allocatePaths t1 t2 t3).Nodup ∧
    ∀ p ∈ allocatePaths t1 t2 t3, ∀ q ∈ allocatePaths u1 u2 u3, p ≠ q := by
  constructor
  · simp only [allocatePaths, List.nodup_cons, List.mem_cons,
      List.not_mem_nil, or_false, List.mem_singleton, not_or,
      List.nodup_nil, and_true]
    exact ⟨⟨tempVideoPath_ne_thumbnailPath _ _, tempVideoPath_ne_audioPath _ _⟩,
      thumbnailPath_ne_audioPath _ _, not_false⟩
  · intro p hp q hq
    simp only [allocatePaths, List.mem_cons, List.mem_singleton,
      List.not_mem_nil, or_false] at hp hq
    rcases hp with rfl | rfl | rfl <;> rcases hq with rfl | rfl | rfl
    · exact fun h => h1 (tempVideoPath_inj _ _ h)
    · exact tempVideoPath_ne_thumbnailPath _ _
    · exact tempVideoPath_ne_audioPath _ _
    · exact Ne.symm (tempVideoPath_ne_thumbnailPath _ _)
    · exact fun h => h2 (thumbnailPath_inj _ _ h)
    · exact thumbnailPath_ne_audioPath _ _
    · exact Ne.symm (tempVideoPath_ne_audioPath _ _)
    · exact Ne.symm (thumbnailPath_ne_audioPath _ _)
    · exact fun h => h3 (audioPath_inj _ _ h)

/-- Witness for the amended C5: runs at milliseconds 1000 and 1001 receive six
pairwise distinct paths. -/
theorem allocatePaths_distinct_witness :
    (allocatePaths 1000 1000 1000).Nodup ∧
    ∀ p ∈ allocatePaths 1000 1000 1000,
      ∀ q ∈ allocatePaths 1001 1001 1001, p ≠ q :=
  allocatePaths_distinct 1000 1000 1000 1001 1001 1001
    (by decide) (by decide) (by decide)

/-- Claim C6 fails on the code: `new ObjectId(id)` throws a BSONError on a
malformed identifier before any query runs, so `getRecording` surfaces an
error rather than "not found". -/
theorem getRecording_errors_on_malformed :
    VideoService.getRecording [] "not-an-object-id" = .error .invalidId := rfl

/-- For a key-wise duplicate-free list, erasing the first key match leaves no
further match to find. -/
theorem find?_eraseP_none {α β : Type} [DecidableEq β] (f : α → β) (b : β)
    (l : List α) (h : (l.map f).Nodup) :
    (l.eraseP (fun a => f a == b)).find? (fun a => f a == b) = none := by
  induction l with
  | nil => rfl
  | cons x xs ih =>
    rw [List.map_cons, List.nodup_cons] at h
    by_cases hx : f x = b
    · rw [List.eraseP_cons_of_pos (by simpa using hx)]
      apply List.find?_eq_none.mpr
      intro a ha hpa
      have hab : f a = b := by simpa using hpa
      exact h.1 (List.mem_map.mpr ⟨a, ha, hab.trans hx.symm⟩)
    · rw [List.eraseP_cons_of_neg (by simpa using hx)]
      rw [List.find?_cons_of_neg _ (by simpa using hx)]
      exact ih h.2

/-- Claim C6 amended: for a well-formed 24-character hex identifier the lookup
is exact-match — a returned record is a stored record with that id, `none`
means no stored record carries the id, and no error is possible; a malformed
identifier raises the ObjectId BSONError instead of returning "not found". -/
theorem getRecording_lookup (store : List Recording) (id : String) :
    (∀ oid, parseObjectId id = some oid →
        (∀ e, VideoService.getRecording store id ≠ .error e) ∧
        (∀ r, VideoService.getRecording store id = .ok (some r) →
            r ∈ store ∧ r._id = oid) ∧
        (VideoService.getRecording store id = .ok none →
            ∀ r ∈ store, r._id ≠ oid)) ∧
    (parseObjectId id = none →
        VideoService.getRecording store id = .error .invalidId) := by
  constructor
  · intro oid hoid
    simp only [VideoService.getRecording, hoid]
    refine ⟨fun e he => by simp at he, fun r hr => ?_, fun hn r hrs => ?_⟩
    · have hf : store.find? (fun s => s._id == oid) = some r := by
        simpa using hr
      exact ⟨List.mem_of_find?_eq_some hf, by simpa using List.find?_some hf⟩
    · have hf : store.find? (fun s => s._id == oid) = none := by simpa using hn
      have := List.find?_eq_none.mp hf r hrs
      simpa using this
  · intro hnone
    simp [VideoService.getRecording, hnone]

/-- Witness for the amended C6: looking up `recA` by its id in the singleton
store returns it, and it is the stored record with that id. -/
theorem getRecording_lookup_witness :
    recA ∈ [recA] ∧ recA._id = "aaaaaaaaaaaaaaaaaaaaaaaa" :=
  ((getRecording_lookup [recA] "aaaaaaaaaaaaaaaaaaaaaaaa").1
    "aaaaaaaaaaaaaaaaaaaaaaaa" (by decide)).2.1 recA rfl

/-- Claim C7 fails on the code: for a malformed identifier `new ObjectId(id)`
throws, so deleting a non-existent malformed identifier is an error — on the
first call and equally on the second — not a no-op. -/
theorem deleteRecording_errors_on_malformed :
    VideoService.deleteRecording [] "not-an-object-id" = .error .invalidId := rfl

/-- Claim C7 amended: for a well-formed 24-character hex identifier over a
store with duplicate-free ids, deletion is idempotent — the second call
succeeds without error and changes nothing, and the lookup returns absent
both after the first deletion (before the second call) and after it; a
malformed identifier errors on every call instead. -/
theorem deleteRecording_idempotent (store : List Recording) (id oid : String)
    (hoid : parseObjectId id = some oid)
    (hnd : (store.map Recording._id).Nodup) :
    ∃ s1, VideoService.deleteRecording store id = .ok s1 ∧
      VideoService.deleteRecording s1 id = .ok s1 ∧
      VideoService.getRecording s1 id = .ok none := by
  refine ⟨store.eraseP (fun r => r._id == oid), ?_, ?_, ?_⟩
  · simp [VideoService.deleteRecording, hoid]
  · simp only [VideoService.deleteRecording, hoid]
    congr 1
    apply List.eraseP_of_forall_not
    intro a ha
    exact List.find?_eq_none.mp (find?_eraseP_none Recording._id oid store hnd) a ha
  · simp only [VideoService.getRecording, hoid]
    rw [find?_eraseP_none Recording._id oid store hnd]

/-- Witness for the amended C7: deleting `recA` twice by its id errors on
neither call, is a no-op the second time, and the lookup is absent. -/
theorem deleteRecording_idempotent_witness :
    ∃ s1,
      VideoService.deleteRecording [recA] "aaaaaaaaaaaaaaaaaaaaaaaa" = .ok s1 ∧
      VideoService.deleteRecording s1 "aaaaaaaaaaaaaaaaaaaaaaaa" = .ok s1 ∧
      VideoService.getRecording s1 "aaaaaaaaaaaaaaaaaaaaaaaa" = .ok none :=
  deleteRecording_idempotent [recA] "aaaaaaaaaaaaaaaaaaaaaaaa"
    "aaaaaaaaaaaaaaaaaaaaaaaa" (by decide) (by decide)

/-! ### Helper lemmas for the listing order -/

/-- A weakly descending list and a strictly descending list that are
permutations of each other are equal: with no duplicate keys there is only
one descending arrangement. -/
theorem perm_sorted_strict_eq : ∀ (l₂ l₁ : List Recording),
    List.Perm l₁ l₂ →
    l₁.Pairwise (fun x y => y.createdAt ≤ x.createdAt) →
    l₂.Pairwise (fun x y => y.createdAt < x.createdAt) →
    l₁ = l₂ := by
  intro l₂
  induction l₂ with
  | nil =>
    intro l₁ hp _ _
    exact hp.eq_nil
  | cons b l₂' ih =>
    intro l₁ hp h₁ h₂
    rcases l₁ with _ | ⟨a, l₁'⟩
    · exact absurd (hp.symm.eq_nil) (by simp)
    · rcases List.pairwise_cons.mp h₁ with ⟨ha1, h₁'⟩
      rcases List.pairwise_cons.mp h₂ with ⟨hb2, h₂'⟩
      have hab : a = b := by
        rcases List.mem_cons.mp (hp.mem_iff.mp (List.mem_cons_self a l₁'))
          with h | h
        · exact h
        · rcases List.mem_cons.mp (hp.mem_iff.mpr (List.mem_cons_self b l₂'))
            with h' | h'
          · exact h'.symm
          · have hlt := hb2 a h
            have hle := ha1 b h'
            omega
      subst hab
      rw [ih l₁' hp.cons_inv h₁' h₂']

/-- Claim C8 fails as frozen: the code only runs
`find().sort({ createdAt: -1 })`, and MongoDB leaves the relative order of
documents with equal `createdAt` unspecified, so a fully compliant engine may
yield two equal-timestamp records in the reverse of their insertion order —
"ties broken by insertion order" is not guaranteed by the program. -/
theorem listAll_tie_order_unspecified :
    recD ≠ recE ∧ recD.createdAt = recE.createdAt ∧
    VideoService.getRecordings [recD, recE] [recE, recD] :=
  ⟨by decide, rfl, by decide, by decide⟩

/-- Claim C8 amended: every result `getRecordings` can return holds exactly
the stored records ordered by `createdAt` descending, and when the stored
timestamps are strictly increasing in insertion order every such result is
exactly the reverse of insertion order; the relative order of records with
equal `createdAt` is the engine's choice and is not guaranteed. -/
theorem getRecordings_listAll (store yielded : List Recording)
    (h : VideoService.getRecordings store yielded) :
    List.Perm yielded store ∧
    yielded.Pairwise (fun x y => y.createdAt ≤ x.createdAt) ∧
    (store.Pairwise (fun x y => x.createdAt < y.createdAt) →
        yielded = store.reverse) := by
  refine ⟨h.1, h.2, fun hmono => ?_⟩
  refine perm_sorted_strict_eq store.reverse yielded ?_ h.2 ?_
  · exact h.1.trans (List.reverse_perm store).symm
  · exact List.pairwise_reverse.mpr hmono

/-- Witness for the amended C8: over three records with increasing
timestamps, an engine-yielded listing is exactly reverse insertion order. -/
theorem getRecordings_listAll_witness :
    [recC, recB, recA] = ([recA, recB, recC] : List Recording).reverse :=
  (getRecordings_listAll [recA, recB, recC] [recC, recB, recA]
    ⟨by decide, by decide⟩).2.2 (by decide)

/-- Claim C9: in every record a run persists, `filename` equals
`originalName` — both are set from the upload's `originalname` (lines 97–98). -/
theorem filename_eq_originalName (file : UploadFile) (env : PipelineEnv)
    (files : List String) (store : List Recording) :
    ∀ r ∈ (VideoService.processVideo file env files store).store,
      r ∈ store ∨
        (r.filename = r.originalName ∧ r.filename = file.originalname) := by
  rw [processVideo_eq]
  rcases env with ⟨n1, n2, n3, w, tb, ab, tr, td, fid, ca, ins⟩
  cases w <;> cases tb <;> cases ab <;> cases tr <;> cases ins <;>
    intro r hr <;>
    first
      | exact Or.inl hr
      | (rcases List.mem_append.mp hr with h | h
         · exact Or.inl h
         · simp_all)

/-- Witness for C9: the record persisted by the successful sample run has
equal `filename` and `originalName`, both the upload's name. -/
theorem filename_eq_originalName_witness :
    sampleInserted ∈ ([] : List Recording) ∨
      (sampleInserted.filename = sampleInserted.originalName ∧
        sampleInserted.filename = sampleFile.originalname) :=
  filename_eq_originalName sampleFile okEnv [] [] sampleInserted (by decide)

/-- Claim C10: every record the pipeline persists carries a transcript — the
document is built only after transcription succeeded — and the store changes
only when the transcription backend returned text, so no record reaches the
store without `transcription` even though the field is declared optional. -/
theorem transcription_present_in_persisted (file : UploadFile)
    (env : PipelineEnv) (files : List String) (store : List Recording) :
    (∀ r ∈ (VideoService.processVideo file env files store).store,
        r ∈ store ∨ r.transcription.isSome = true) ∧
    ((VideoService.processVideo file env files store).store ≠ store →
        env.transcriptionResult.isSome = true) := by
  rw [processVideo_eq]
  rcases env with ⟨n1, n2, n3, w, tb, ab, tr, td, fid, ca, ins⟩
  cases w <;> cases tb <;> cases ab <;> cases tr <;> cases ins <;>
    refine ⟨fun r hr => ?_, fun hs => ?_⟩ <;>
    first
      | exact Or.inl hr
      | (rcases List.mem_append.mp hr with h | h
         · exact Or.inl h
         · simp_all)
      | simp_all

/-- Witness for C10: the record persisted by the successful sample run has a
present transcript. -/
theorem transcription_present_in_persisted_witness :
    sampleInserted ∈ ([] : List Recording) ∨
      sampleInserted.transcription.isSome = true :=
  (transcription_present_in_persisted sampleFile okEnv [] []).1
    sampleInserted (by decide)
